import Mathlib

set_option maxHeartbeats 1000000
set_option maxRecDepth 8000

namespace Dependabot

/-- Outcome of a JavaScript computation that throws: either an exception that
is an instance of Error carrying a message, or a thrown value that is not an
Error instance (the code distinguishes the two with instanceof checks). -/
inductive Thrown where
  | jsError (message : String)
  | jsNonError
  deriving DecidableEq

/-- Job metadata returned by the job-control service; only the experiment keys
are consulted by the code under verification (hasOwnProperty checks key
presence, so the experiments object is modelled as its list of keys). -/
structure JobDetails where
  experiments : Option (List String)
  deriving DecidableEq

/-- One registry credential entry, as handed from the job-control client to the
proxy builder. The fields are opaque to the code under verification. -/
structure Credential where
  credType : String
  host : String
  secret : String
  deriving DecidableEq

/-- Parameters extracted from the Actions environment by getJobParameters
(the inputs module, external to the files under verification); only the fields
read by the main module are modelled. -/
structure JobParameters where
  jobId : Nat
  jobToken : String
  credentialsToken : String
  dependabotApiUrl : String
  deriving DecidableEq

/-- The process environment variables read by the main module. A value of none
models an unset variable. -/
structure ProcessEnv where
  githubDependabotJobToken : Option String
  githubDependabotCredToken : Option String
  dependabotCredentials : Option String
  mavenOpts : Option String
  gradleOpts : Option String
  semmleJavaExtractorJvmArgs : Option String
  githubServerUrl : Option String
  githubRepository : Option String
  deriving DecidableEq

/-- Hostname and port extracted from the URL returned by proxy.url(). -/
structure UrlParts where
  hostname : String
  port : String
  deriving DecidableEq

/-- The proxy handle returned by ProxyBuilder.run: a container id, the CA
certificate in PEM form, and the isolated network name. -/
structure ProxyHandle where
  containerId : String
  cert : String
  networkName : String
  deriving DecidableEq

/-- Decidable equality for Except values over decidable components. -/
instance exceptDecEq {ε α : Type} [DecidableEq ε] [DecidableEq α] :
    DecidableEq (Except ε α) := fun x y =>
  match x, y with
  | Except.ok a, Except.ok b =>
    if h : a = b then isTrue (by rw [h]) else isFalse (fun hc => h (Except.ok.inj hc))
  | Except.error a, Except.error b =>
    if h : a = b then isTrue (by rw [h]) else isFalse (fun hc => h (Except.error.inj hc))
  | Except.ok _, Except.error _ => isFalse (fun hc => Except.noConfusion hc)
  | Except.error _, Except.ok _ => isFalse (fun hc => Except.noConfusion hc)

/-- Results of the external (I/O) calls made by one execution of run, together
with ambient process facts. Each Except value records whether the call
returned or threw. This is the oracle over which run is a pure function. -/
structure Calls where
  getJobDetails : Except Thrown JobDetails
  getCredentials : Except Thrown (List Credential)
  parseEnvCredentials : Except Thrown (List Credential)
  imagePull : Except Thrown Unit
  proxyBuilderRun : Except Thrown ProxyHandle
  containerStart : Except Thrown Unit
  proxyUrl : Except Thrown UrlParts
  dummyKeyDer : String
  cwd : String
  homeDir : String
  deriving DecidableEq

/-- The option record passed to pkcs12.toPkcs12Asn1 by the richer variant. -/
structure Pkcs12Options where
  algorithm : String
  friendlyName : String
  generateLocalKeyId : Bool
  useMac : Bool
  count : Nat
  saltSize : Nat
  deriving DecidableEq

/-- Bytes written to a file. The node-forge PKCS12 export is modelled as an
abstract constructor that is injective in the inputs of the library call
(private key, certificate, password, options): archives built from different
inputs have different bytes, and the bytes are determined by those inputs. -/
inductive FileData where
  | text (contents : String)
  | pkcs12Der (privateKeyDer : Option String) (certificatePem : String)
      (password : Option String) (options : Option Pkcs12Options)
  deriving DecidableEq

/-- Observable effects of one execution, in program order. Logging calls
(core.info, botSay, startGroup, endGroup) carry no observable state and are
not modelled; core.setFailed is kept because it fails the run locally. -/
inductive Event where
  | setSecret (value : String)
  | setFailed (message : String)
  | reportJobError (errorType : String) (actionError : String)
  | markJobAsProcessed
  | pullImage (image : String)
  | proxyBuild (jobId : Option Nat) (jobToken : String) (dependabotApiUrl : String)
      (credentials : List Credential) (cachedMode : Bool)
  | containerStart
  | saveState (key : String) (value : String)
  | writeFile (path : String) (data : FileData)
  | mkdirRecursive (path : String)
  | exportVariable (name : String) (value : String)
  deriving DecidableEq

/-- The DependabotErrorType enum of the main module. -/
inductive DependabotErrorType where
  | unknown
  | image
  | updateRun
  deriving DecidableEq

/-- String value of each DependabotErrorType enum member. -/
def DependabotErrorType.value : DependabotErrorType → String
  | DependabotErrorType.unknown => "actions_workflow_unknown"
  | DependabotErrorType.image => "actions_workflow_image"
  | DependabotErrorType.updateRun => "actions_workflow_updater"

/-- How one execution of run ended: a normal return, or an uncaught thrown
value (a rejected promise). -/
inductive Termination where
  | normal
  | thrown (t : Thrown)
  deriving DecidableEq

/-- An execution of run: its event trace in program order and how it ended. -/
structure RunResult where
  trace : List Event
  termination : Termination
  deriving DecidableEq

/-- The record destructured by run from getDependabotJobParameters or from
getCredentialsFromEnv. The apiClient object is modelled by the boolean
hasApiClient, since the only observation run makes of it is definedness. -/
structure DependabotJobParameters where
  jobToken : String
  dependabotApiUrl : String
  cachedMode : Bool
  credentials : List Credential
  hasApiClient : Bool
  deriving DecidableEq

/-- Result of getDependabotJobParameters: its event trace, the value stored in
the module-level jobId variable after the call, and either the returned value
(some parameters or null) or a rethrown non-Error value. -/
structure FetchResult where
  trace : List Event
  jobId : Option Nat
  result : Except Thrown (Option DependabotJobParameters)
  deriving DecidableEq

/-- JavaScript disjunction a likely-string-or-undefined with a string
fallback: the fallback is used when the value is unset or the empty string,
both of which are falsy. -/
def jsOr (value : Option String) (fallback : String) : String :=
  match value with
  | some s => if s = "" then fallback else s
  | none => fallback

/-- The cached-mode flag computed from job details: the experiments object
exists and has the proxy-cached key. -/
def cachedModeOf (details : JobDetails) : Bool :=
  match details.experiments with
  | some keys => keys.contains "proxy-cached"
  | none => false

/-- JavaScript truthiness of the module-level numeric jobId variable:
assigned and nonzero. -/
def jobIdTruthy : Option Nat → Bool
  | some id => id != 0
  | none => false

/-- The dependabotJobUrl helper: joins the server URL, repository,
network/updates and the id, dropping falsy parts. -/
def dependabotJobUrl (env : ProcessEnv) (id : Nat) : String :=
  String.intercalate "/"
    (([jsOr env.githubServerUrl "", jsOr env.githubRepository "",
       "network/updates", if id = 0 then "" else toString id]).filter
      (fun s => !(s == "")))

/-- The dependabotJobHelp helper: a pointer to the job log when jobId is
truthy, null otherwise. -/
def dependabotJobHelp (env : ProcessEnv) (jobId : Option Nat) : Option String :=
  match jobId with
  | some id =>
    if id = 0 then none
    else some ("For more information see: " ++ dependabotJobUrl env id ++
      " (write access to the repository is required to view the log)")
  | none => none

/-- The message built by the local setFailed helper: when jobId is truthy the
message is joined with the stringified error and the help text; the error
argument carries the JavaScript String(error) rendering of the Error value,
if one was passed. -/
def setFailedMessage (env : ProcessEnv) (jobId : Option Nat) (message : String)
    (error : Option String) : String :=
  if jobIdTruthy jobId then
    String.intercalate "\n\n"
      (([some message, error, dependabotJobHelp env jobId].filterMap id).filter
        (fun s => !(s == "")))
  else message

/-- The getDependabotJobParameters function of the main module, as a pure
function of the environment, the parsed Actions parameters, and the external
call results. Fetch failures that are Error instances are caught, reported
only locally via setFailed, and turned into a null return; non-Error throws
are rethrown. The two core.setFailed calls for missing tokens take the plain
message (they do not go through the local setFailed helper). -/
def getDependabotJobParameters (env : ProcessEnv) (params : Option JobParameters)
    (w : Calls) : FetchResult :=
  match params with
  | none => ⟨[], none, Except.ok none⟩
  | some p =>
    let jobToken := jsOr env.githubDependabotJobToken p.jobToken
    let credentialsToken := jsOr env.githubDependabotCredToken p.credentialsToken
    if jobToken = "" then
      ⟨[Event.setFailed "Github Dependabot job token is not set"], none, Except.ok none⟩
    else if credentialsToken = "" then
      ⟨[Event.setFailed "Github Dependabot credentials token is not set"], none, Except.ok none⟩
    else
      let jid : Option Nat := some p.jobId
      let secretEvents := [Event.setSecret jobToken, Event.setSecret credentialsToken]
      match w.getJobDetails with
      | Except.error (Thrown.jsError m) =>
        ⟨secretEvents ++
          [Event.setFailed (setFailedMessage env jid "Dependabot encountered an unexpected problem"
            (some ("Error: " ++ m)))], jid, Except.ok none⟩
      | Except.error Thrown.jsNonError =>
        ⟨secretEvents, jid, Except.error Thrown.jsNonError⟩
      | Except.ok details =>
        match w.getCredentials with
        | Except.error (Thrown.jsError m) =>
          ⟨secretEvents ++
            [Event.setFailed (setFailedMessage env jid "Dependabot encountered an unexpected problem"
              (some ("Error: " ++ m)))], jid, Except.ok none⟩
        | Except.error Thrown.jsNonError =>
          ⟨secretEvents, jid, Except.error Thrown.jsNonError⟩
        | Except.ok credentials =>
          ⟨secretEvents, jid,
            Except.ok (some ⟨jobToken, p.dependabotApiUrl, cachedModeOf details,
              credentials, true⟩)⟩

/-- The getCredentialsFromEnv function: parses DEPENDABOT_CREDENTIALS
(defaulting to the empty JSON array) and returns parameters with empty
tokens, cachedMode set to true, and no apiClient. JSON.parse of a malformed
value throws, which propagates to the caller. -/
def getCredentialsFromEnv (env : ProcessEnv) (w : Calls) :
    Except Thrown DependabotJobParameters :=
  match env.dependabotCredentials with
  | none => Except.ok ⟨"", "", true, [], false⟩
  | some s =>
    if s = "" then Except.ok ⟨"", "", true, [], false⟩
    else
      match w.parseEnvCredentials with
      | Except.error t => Except.error t
      | Except.ok credentials => Except.ok ⟨"", "", true, credentials, false⟩

/-- The failJob function: when an apiClient exists, sends the structured
error report and then marks the job as processed; in all cases fails the run
locally through the setFailed helper. -/
def failJob (env : ProcessEnv) (jobId : Option Nat) (hasApiClient : Bool)
    (message : String) (errorMessage : String)
    (errorType : DependabotErrorType) : List Event :=
  (if hasApiClient then
    [Event.reportJobError errorType.value errorMessage, Event.markJobAsProcessed]
   else []) ++ [Event.setFailed (setFailedMessage env jobId message (some ("Error: " ++ errorMessage)))]

/-- Modelled from the spec: the proxy image reference is defined in the
docker-tags module, which is not among the sources under verification; it is
an opaque image reference whose exact value no claim depends on. -/
def PROXY_IMAGE_NAME : String := "dependabot-update-job-proxy"

/-- The path.resolve call against the working directory of the process. -/
def resolvePath (cwd p : String) : String := cwd ++ "/" ++ p

/-- The path.join call on two segments. -/
def joinPath (a b : String) : String := a ++ "/" ++ b

/-- The Maven settings.xml template of the richer variant, a single line
after the template-literal line continuations are removed. -/
def mavenSettingsXml (hostname port : String) : String :=
  "<settings xmlns=\"http://maven.apache.org/SETTINGS/1.2.0\" xmlns:xsi=\"http://www.w3.org/2001/XMLSchema-instance\" " ++
  "    xsi:schemaLocation=\"http://maven.apache.org/SETTINGS/1.2.0 http://maven.apache.org/xsd/settings-1.2.0.xsd\">" ++
  "    <proxies>" ++
  "      <proxy><protocol>http</protocol><host>" ++ hostname ++ "</host><port>" ++ port ++ "</port></proxy>" ++
  "      <proxy><protocol>https</protocol><host>" ++ hostname ++ "</host><port>" ++ port ++ "</port></proxy>" ++
  "    </proxies>" ++
  "  </settings>"

/-- The file writes and exported variables performed by the richer variant
after the proxy URL has been obtained: the password-protected PKCS12 trust
store at the resolved keystore.p12 path (built from a freshly generated dummy
key and the proxy CA certificate), the PEM certificate file, the Maven
settings.xml under the home directory, and the exported variables. -/
def richerOutputs (env : ProcessEnv) (proxy : ProxyHandle) (u : UrlParts)
    (w : Calls) : List Event :=
  let password := "changeit"
  let trustStore := resolvePath w.cwd "keystore.p12"
  let pemFile := resolvePath w.cwd "cert.pem"
  let javaSslOpts := "-Djavax.net.ssl.trustStore=" ++ trustStore ++
    " -Djavax.net.ssl.trustStoreType=PKCS12 -Djavax.net.ssl.trustStorePassword=" ++ password
  let javaProxyOpts := "-Dhttp.proxyHost=" ++ u.hostname ++ " -Dhttp.proxyPort=" ++ u.port ++
    " -Dhttps.proxyHost=" ++ u.hostname ++ " -Dhttps.proxyPort=" ++ u.port
  let m2Dir := joinPath w.homeDir ".m2"
  [Event.writeFile trustStore
     (FileData.pkcs12Der (some w.dummyKeyDer) proxy.cert (some password)
       (some ⟨"3des", "mykey", false, true, 10000, 20⟩)),
   Event.writeFile pemFile (FileData.text proxy.cert),
   Event.mkdirRecursive m2Dir,
   Event.writeFile (joinPath m2Dir "settings.xml")
     (FileData.text (mavenSettingsXml u.hostname u.port)),
   Event.exportVariable "MAVEN_OPTS"
     (javaSslOpts ++ " -DproxySet=true " ++ javaProxyOpts ++ " " ++ jsOr env.mavenOpts ""),
   Event.exportVariable "GRADLE_OPTS"
     (javaSslOpts ++ " " ++ javaProxyOpts ++ " " ++ jsOr env.gradleOpts ""),
   Event.exportVariable "SEMMLE_JAVA_EXTRACTOR_JVM_ARGS"
     (javaSslOpts ++ " " ++ javaProxyOpts ++ " " ++ jsOr env.semmleJavaExtractorJvmArgs ""),
   Event.exportVariable "CODEQL_JAVA_EXTRACTOR_TRUST_STORE_PATH" trustStore,
   Event.exportVariable "PROXY_NETWORK_NAME" proxy.networkName,
   Event.exportVariable "PROXY_HOST" u.hostname,
   Event.exportVariable "PROXY_PORT" u.port,
   Event.exportVariable "PROXY_CA_CERT" pemFile]

/-- The proxy phase of the richer variant: build the proxy, start its
container, save the container id to the Actions state, poll for the URL, then
perform the output writes and exports. None of these steps is inside a
try block in the source, so any thrown value escapes run. -/
def proxyPhaseRicher (env : ProcessEnv) (jobId : Option Nat)
    (djp : DependabotJobParameters) (w : Calls) : RunResult :=
  let buildEv := Event.proxyBuild jobId djp.jobToken djp.dependabotApiUrl
    djp.credentials djp.cachedMode
  match w.proxyBuilderRun with
  | Except.error t => ⟨[buildEv], Termination.thrown t⟩
  | Except.ok proxy =>
    match w.containerStart with
    | Except.error t => ⟨[buildEv, Event.containerStart], Termination.thrown t⟩
    | Except.ok _ =>
      match w.proxyUrl with
      | Except.error t =>
        ⟨[buildEv, Event.containerStart,
          Event.saveState "PROXY_CONTAINER_ID" proxy.containerId], Termination.thrown t⟩
      | Except.ok u =>
        ⟨[buildEv, Event.containerStart,
          Event.saveState "PROXY_CONTAINER_ID" proxy.containerId] ++
          richerOutputs env proxy u w, Termination.normal⟩

/-- The image-pull stage and everything after it in the richer variant, once
the destructured parameters are in hand: pull the proxy image catching only
Error instances (a caught Error is routed through failJob with the Image
error type and run returns; a non-Error throw is swallowed and execution
continues), then run the proxy phase. -/
def pullPhaseRicher (env : ProcessEnv) (fr : FetchResult)
    (djp : DependabotJobParameters) (w : Calls) : RunResult :=
  match w.imagePull with
  | Except.error (Thrown.jsError m) =>
    ⟨fr.trace ++ Event.pullImage PROXY_IMAGE_NAME ::
      failJob env fr.jobId djp.hasApiClient
        ("Error fetching updater images" ++ m) m DependabotErrorType.image,
     Termination.normal⟩
  | Except.error Thrown.jsNonError =>
    let r := proxyPhaseRicher env fr.jobId djp w
    ⟨fr.trace ++ Event.pullImage PROXY_IMAGE_NAME :: r.trace, r.termination⟩
  | Except.ok _ =>
    let r := proxyPhaseRicher env fr.jobId djp w
    ⟨fr.trace ++ Event.pullImage PROXY_IMAGE_NAME :: r.trace, r.termination⟩

/-- The body of run (richer variant) after getDependabotJobParameters has
returned: fall back to getCredentialsFromEnv when the fetch produced null
(a throw from the fallback JSON parse escapes run), then the pull phase. -/
def runAfterFetch (env : ProcessEnv) (fr : FetchResult) (w : Calls) : RunResult :=
  match fr.result with
  | Except.error t => ⟨fr.trace, Termination.thrown t⟩
  | Except.ok jobParameters =>
    match (match jobParameters with
           | some djp => Except.ok djp
           | none => getCredentialsFromEnv env w) with
    | Except.error t => ⟨fr.trace, Termination.thrown t⟩
    | Except.ok djp => pullPhaseRicher env fr djp w

/-- The run function of the richer variant (part_001). -/
def runRicher (env : ProcessEnv) (params : Option JobParameters) (w : Calls) :
    RunResult :=
  runAfterFetch env (getDependabotJobParameters env params w) w

/-- The file write and exported variables performed by the minimal variant
after the proxy URL has been obtained: an unprotected PKCS12 store (null key,
null password, default options) at the relative keystore.p12 path, and only
the MAVEN_OPTS and GRADLE_OPTS variables, whose SSL options carry no
trust-store password. -/
def minimalOutputs (env : ProcessEnv) (proxy : ProxyHandle) (u : UrlParts) :
    List Event :=
  let trustStore := "keystore.p12"
  let javaSslOpts := "-Djavax.net.ssl.trustStore=" ++ trustStore ++
    " -Djavax.net.ssl.trustStoreType=PKCS12"
  let javaProxyOpts := "-Dhttp.proxyHost=" ++ u.hostname ++ " -Dhttp.proxyPort=" ++ u.port ++
    " -Dhttps.proxyHost=" ++ u.hostname ++ " -Dhttps.proxyPort=" ++ u.port
  [Event.writeFile trustStore (FileData.pkcs12Der none proxy.cert none none),
   Event.exportVariable "MAVEN_OPTS"
     (javaSslOpts ++ " -DproxySet=true " ++ javaProxyOpts ++ " " ++ jsOr env.mavenOpts ""),
   Event.exportVariable "GRADLE_OPTS"
     (javaSslOpts ++ " " ++ javaProxyOpts ++ " " ++ jsOr env.gradleOpts "")]

/-- The proxy phase of the minimal variant (part_000): identical control flow
to the richer variant up to the URL poll, then the smaller output set. -/
def proxyPhaseMinimal (env : ProcessEnv) (jobId : Option Nat)
    (djp : DependabotJobParameters) (w : Calls) : RunResult :=
  let buildEv := Event.proxyBuild jobId djp.jobToken djp.dependabotApiUrl
    djp.credentials djp.cachedMode
  match w.proxyBuilderRun with
  | Except.error t => ⟨[buildEv], Termination.thrown t⟩
  | Except.ok proxy =>
    match w.containerStart with
    | Except.error t => ⟨[buildEv, Event.containerStart], Termination.thrown t⟩
    | Except.ok _ =>
      match w.proxyUrl with
      | Except.error t =>
        ⟨[buildEv, Event.containerStart,
          Event.saveState "PROXY_CONTAINER_ID" proxy.containerId], Termination.thrown t⟩
      | Except.ok u =>
        ⟨[buildEv, Event.containerStart,
          Event.saveState "PROXY_CONTAINER_ID" proxy.containerId] ++
          minimalOutputs env proxy u, Termination.normal⟩

/-- The image-pull stage and everything after it in the minimal variant; the
pull and failJob logic is textually identical to the richer variant. -/
def pullPhaseMinimal (env : ProcessEnv) (fr : FetchResult)
    (djp : DependabotJobParameters) (w : Calls) : RunResult :=
  match w.imagePull with
  | Except.error (Thrown.jsError m) =>
    ⟨fr.trace ++ Event.pullImage PROXY_IMAGE_NAME ::
      failJob env fr.jobId djp.hasApiClient
        ("Error fetching updater images" ++ m) m DependabotErrorType.image,
     Termination.normal⟩
  | Except.error Thrown.jsNonError =>
    let r := proxyPhaseMinimal env fr.jobId djp w
    ⟨fr.trace ++ Event.pullImage PROXY_IMAGE_NAME :: r.trace, r.termination⟩
  | Except.ok _ =>
    let r := proxyPhaseMinimal env fr.jobId djp w
    ⟨fr.trace ++ Event.pullImage PROXY_IMAGE_NAME :: r.trace, r.termination⟩

/-- The body of run (minimal variant) after the parameter fetch; the fetch,
fallback and image-pull logic is textually identical to the richer variant. -/
def runAfterFetchMinimal (env : ProcessEnv) (fr : FetchResult) (w : Calls) :
    RunResult :=
  match fr.result with
  | Except.error t => ⟨fr.trace, Termination.thrown t⟩
  | Except.ok jobParameters =>
    match (match jobParameters with
           | some djp => Except.ok djp
           | none => getCredentialsFromEnv env w) with
    | Except.error t => ⟨fr.trace, Termination.thrown t⟩
    | Except.ok djp => pullPhaseMinimal env fr djp w

/-- The run function of the minimal variant (part_000); its
getDependabotJobParameters is an identical copy of the one in the richer
variant and is shared here. -/
def runMinimal (env : ProcessEnv) (params : Option JobParameters) (w : Calls) :
    RunResult :=
  runAfterFetchMinimal env (getDependabotJobParameters env params w) w

/-- Recognizer for setSecret events. -/
def Event.isSetSecret : Event → Bool
  | Event.setSecret _ => true
  | _ => false

/-- Recognizer for setFailed events. -/
def Event.isSetFailed : Event → Bool
  | Event.setFailed _ => true
  | _ => false

/-- Recognizer for reportJobError events. -/
def Event.isReportJobError : Event → Bool
  | Event.reportJobError _ _ => true
  | _ => false

/-- Recognizer for markJobAsProcessed events. -/
def Event.isMarkJobAsProcessed : Event → Bool
  | Event.markJobAsProcessed => true
  | _ => false

/-- Recognizer for pullImage events. -/
def Event.isPullImage : Event → Bool
  | Event.pullImage _ => true
  | _ => false

/-- Recognizer for proxyBuild events. -/
def Event.isProxyBuild : Event → Bool
  | Event.proxyBuild _ _ _ _ _ => true
  | _ => false

/-- Recognizer for containerStart events. -/
def Event.isContainerStart : Event → Bool
  | Event.containerStart => true
  | _ => false

/-- The name-value pairs exported to the environment during a trace. -/
def exportsOf (trace : List Event) : List (String × String) :=
  trace.filterMap (fun e => match e with
    | Event.exportVariable n v => some (n, v)
    | _ => none)

/-- The path-content pairs written to the filesystem during a trace. -/
def writesOf (trace : List Event) : List (String × FileData) :=
  trace.filterMap (fun e => match e with
    | Event.writeFile p d => some (p, d)
    | _ => none)

/-- Holds of a trace in which every reportJobError is immediately followed by
markJobAsProcessed and every markJobAsProcessed is immediately preceded by
reportJobError. -/
def reportMarkPaired : List Event → Bool
  | [] => true
  | Event.reportJobError _ _ :: Event.markJobAsProcessed :: rest => reportMarkPaired rest
  | Event.reportJobError _ _ :: _ => false
  | Event.markJobAsProcessed :: _ => false
  | _ :: rest => reportMarkPaired rest

/-- An environment with every variable unset. -/
def envEmpty : ProcessEnv := ⟨none, none, none, none, none, none, none, none⟩

/-- An environment with pre-existing Java tool options set. -/
def envMaven : ProcessEnv :=
  ⟨none, none, none, some "-Xmx2g", some "-Dorg.gradle.daemon=false", some "-Xss8m",
   none, none⟩

/-- Sample Actions parameters for concrete executions. -/
def paramsSample : JobParameters := ⟨42, "jobtok", "credtok", "https://api.example.test"⟩

/-- Sample proxy handle for concrete executions. -/
def proxySample : ProxyHandle := ⟨"cid-1", "CERT-PEM-DATA", "net-42"⟩

/-- Sample proxy URL parts for concrete executions. -/
def urlSample : UrlParts := ⟨"10.0.0.2", "1080"⟩

/-- Job details with an experiments object that has no keys. -/
def detailsNoFlags : JobDetails := ⟨some []⟩

/-- A world in which every external call succeeds. -/
def callsAllOk : Calls :=
  ⟨Except.ok detailsNoFlags, Except.ok [], Except.ok [], Except.ok (),
   Except.ok proxySample, Except.ok (), Except.ok urlSample,
   "DUMMYKEY", "/work", "/home/runner"⟩

/-- A world in which everything succeeds except the proxy builder, which
throws an Error. -/
def callsProxyThrow : Calls :=
  { callsAllOk with proxyBuilderRun := Except.error (Thrown.jsError "network create failed") }

/-- A world in which fetching the job details throws an Error (an
unauthorized response) and everything else succeeds. -/
def callsDetailsThrow : Calls :=
  { callsAllOk with getJobDetails := Except.error (Thrown.jsError "401 Unauthorized") }

/-- The parameters produced by a successful fetch in the callsAllOk world
with paramsSample and an empty environment. -/
def djpFetched : DependabotJobParameters :=
  ⟨"jobtok", "https://api.example.test", false, [], true⟩

/-- A world in which everything succeeds except the image pull, which throws
an Error. -/
def callsPullError : Calls :=
  { callsAllOk with imagePull := Except.error (Thrown.jsError "pull refused") }

/-- A world in which everything succeeds except the image pull, which throws
a value that is not an Error instance. -/
def callsPullNonError : Calls :=
  { callsAllOk with imagePull := Except.error Thrown.jsNonError }

end Dependabot

namespace Dependabot

/-- Every event recorded by getDependabotJobParameters is a setSecret or a
setFailed: the fetch stage performs no remote report and no pipeline work. -/
theorem fetch_trace_events (env : ProcessEnv) (params : Option JobParameters) (w : Calls) :
    ((getDependabotJobParameters env params w).trace.all
      (fun e => e.isSetSecret || e.isSetFailed)) = true := by
  unfold getDependabotJobParameters
  cases params with
  | none => rfl
  | some p =>
    simp only []
    split
    · rfl
    · split
      · rfl
      · split <;> try rfl
        split <;> rfl

/-- Monotonicity of the all predicate over a trace. -/
theorem all_imp_events (l : List Event) (p q : Event → Bool)
    (hpq : ∀ e, p e = true → q e = true) (h : l.all p = true) : l.all q = true := by
  simp only [List.all_eq_true] at h ⊢
  exact fun e he => hpq e (h e he)

/-- The fetch stage records no reportJobError and no markJobAsProcessed. -/
theorem fetch_trace_clean (env : ProcessEnv) (params : Option JobParameters) (w : Calls) :
    ((getDependabotJobParameters env params w).trace.all
      (fun e => !(e.isReportJobError || e.isMarkJobAsProcessed))) = true := by
  refine all_imp_events _ _ _ ?_ (fetch_trace_events env params w)
  intro e he
  cases e <;> simp_all [Event.isSetSecret, Event.isSetFailed, Event.isReportJobError,
    Event.isMarkJobAsProcessed]

/-- Forward evaluation of the fetch stage when both tokens are nonempty and
both service calls return: secrets are registered and the parameters carry
the experiment-driven cachedMode flag and an apiClient. -/
theorem fetch_success_eq (env : ProcessEnv) (p : JobParameters) (w : Calls)
    (d : JobDetails) (creds : List Credential)
    (hjt : ¬ jsOr env.githubDependabotJobToken p.jobToken = "")
    (hct : ¬ jsOr env.githubDependabotCredToken p.credentialsToken = "")
    (hd : w.getJobDetails = Except.ok d)
    (hc : w.getCredentials = Except.ok creds) :
    getDependabotJobParameters env (some p) w =
      ⟨[Event.setSecret (jsOr env.githubDependabotJobToken p.jobToken),
        Event.setSecret (jsOr env.githubDependabotCredToken p.credentialsToken)],
       some p.jobId,
       Except.ok (some ⟨jsOr env.githubDependabotJobToken p.jobToken, p.dependabotApiUrl,
         cachedModeOf d, creds, true⟩)⟩ := by
  unfold getDependabotJobParameters
  simp [hjt, hct, hd, hc]

/-- Forward evaluation of the fetch stage when getJobDetails throws an Error:
the Error is caught, reported only locally through setFailed, and null is
returned. -/
theorem fetch_detailsError_eq (env : ProcessEnv) (p : JobParameters) (w : Calls) (m : String)
    (hjt : ¬ jsOr env.githubDependabotJobToken p.jobToken = "")
    (hct : ¬ jsOr env.githubDependabotCredToken p.credentialsToken = "")
    (hd : w.getJobDetails = Except.error (Thrown.jsError m)) :
    getDependabotJobParameters env (some p) w =
      ⟨[Event.setSecret (jsOr env.githubDependabotJobToken p.jobToken),
        Event.setSecret (jsOr env.githubDependabotCredToken p.credentialsToken),
        Event.setFailed (setFailedMessage env (some p.jobId)
          "Dependabot encountered an unexpected problem" (some ("Error: " ++ m)))],
       some p.jobId, Except.ok none⟩ := by
  unfold getDependabotJobParameters
  simp [hjt, hct, hd]

/-- Forward evaluation of the fetch stage when getCredentials throws an
Error: same local-only failure handling as a details failure. -/
theorem fetch_credsError_eq (env : ProcessEnv) (p : JobParameters) (w : Calls)
    (d : JobDetails) (m : String)
    (hjt : ¬ jsOr env.githubDependabotJobToken p.jobToken = "")
    (hct : ¬ jsOr env.githubDependabotCredToken p.credentialsToken = "")
    (hd : w.getJobDetails = Except.ok d)
    (hc : w.getCredentials = Except.error (Thrown.jsError m)) :
    getDependabotJobParameters env (some p) w =
      ⟨[Event.setSecret (jsOr env.githubDependabotJobToken p.jobToken),
        Event.setSecret (jsOr env.githubDependabotCredToken p.credentialsToken),
        Event.setFailed (setFailedMessage env (some p.jobId)
          "Dependabot encountered an unexpected problem" (some ("Error: " ++ m)))],
       some p.jobId, Except.ok none⟩ := by
  unfold getDependabotJobParameters
  simp [hjt, hct, hd, hc]

/-- Any parameters produced by getCredentialsFromEnv carry no apiClient, have
cachedMode switched on, and an empty job token. -/
theorem fallback_inv (env : ProcessEnv) (w : Calls) (djp : DependabotJobParameters)
    (h : getCredentialsFromEnv env w = Except.ok djp) :
    djp.hasApiClient = false ∧ djp.cachedMode = true ∧ djp.jobToken = "" := by
  unfold getCredentialsFromEnv at h
  split at h
  · exact ⟨by injection h with h2; rw [← h2], by injection h with h2; rw [← h2],
      by injection h with h2; rw [← h2]⟩
  · split at h
    · exact ⟨by injection h with h2; rw [← h2], by injection h with h2; rw [← h2],
        by injection h with h2; rw [← h2]⟩
    · split at h
      · exact absurd h (by simp)
      · exact ⟨by injection h with h2; rw [← h2], by injection h with h2; rw [← h2],
          by injection h with h2; rw [← h2]⟩

/-- Run reduction when the fetch returned parameters. -/
theorem runAfterFetch_some_eq (env : ProcessEnv) (fr : FetchResult) (w : Calls)
    (djp : DependabotJobParameters) (h : fr.result = Except.ok (some djp)) :
    runAfterFetch env fr w = pullPhaseRicher env fr djp w := by
  unfold runAfterFetch
  rw [h]

/-- Run reduction when the fetch returned null and the environment fallback
parses: the pipeline continues with the fallback parameters. -/
theorem runAfterFetch_none_eq (env : ProcessEnv) (fr : FetchResult) (w : Calls)
    (dfb : DependabotJobParameters) (h : fr.result = Except.ok none)
    (hf : getCredentialsFromEnv env w = Except.ok dfb) :
    runAfterFetch env fr w = pullPhaseRicher env fr dfb w := by
  unfold runAfterFetch
  rw [h]
  simp [hf]

/-- Run reduction when the fetch rethrew a non-Error value. -/
theorem runAfterFetch_err_eq (env : ProcessEnv) (fr : FetchResult) (w : Calls)
    (t : Thrown) (h : fr.result = Except.error t) :
    runAfterFetch env fr w = ⟨fr.trace, Termination.thrown t⟩ := by
  unfold runAfterFetch
  rw [h]

/-- Run reduction when the fetch returned null and the environment fallback
throws: the throw escapes run before any pipeline stage. -/
theorem runAfterFetch_noneErr_eq (env : ProcessEnv) (fr : FetchResult) (w : Calls)
    (t : Thrown) (h : fr.result = Except.ok none)
    (hf : getCredentialsFromEnv env w = Except.error t) :
    runAfterFetch env fr w = ⟨fr.trace, Termination.thrown t⟩ := by
  unfold runAfterFetch
  rw [h]
  simp [hf]

/-- Pull-phase reduction when the image pull throws an Error: the failure is
routed through failJob with the Image error type and run returns normally. -/
theorem pullPhase_error_eq (env : ProcessEnv) (fr : FetchResult)
    (djp : DependabotJobParameters) (w : Calls) (m : String)
    (h : w.imagePull = Except.error (Thrown.jsError m)) :
    pullPhaseRicher env fr djp w =
      ⟨fr.trace ++ Event.pullImage PROXY_IMAGE_NAME ::
        failJob env fr.jobId djp.hasApiClient
          ("Error fetching updater images" ++ m) m DependabotErrorType.image,
       Termination.normal⟩ := by
  unfold pullPhaseRicher
  rw [h]

/-- Pull-phase reduction when the image pull succeeds. -/
theorem pullPhase_ok_eq (env : ProcessEnv) (fr : FetchResult)
    (djp : DependabotJobParameters) (w : Calls)
    (h : w.imagePull = Except.ok ()) :
    pullPhaseRicher env fr djp w =
      ⟨fr.trace ++ Event.pullImage PROXY_IMAGE_NAME ::
        (proxyPhaseRicher env fr.jobId djp w).trace,
       (proxyPhaseRicher env fr.jobId djp w).termination⟩ := by
  unfold pullPhaseRicher
  rw [h]

/-- Pull-phase reduction when the image pull throws a non-Error value: the
catch block matches nothing and execution continues into the proxy phase. -/
theorem pullPhase_nonError_eq (env : ProcessEnv) (fr : FetchResult)
    (djp : DependabotJobParameters) (w : Calls)
    (h : w.imagePull = Except.error Thrown.jsNonError) :
    pullPhaseRicher env fr djp w =
      ⟨fr.trace ++ Event.pullImage PROXY_IMAGE_NAME ::
        (proxyPhaseRicher env fr.jobId djp w).trace,
       (proxyPhaseRicher env fr.jobId djp w).termination⟩ := by
  unfold pullPhaseRicher
  rw [h]

/-- Proxy-phase reduction when building, starting and polling all succeed. -/
theorem proxyPhase_success_eq (env : ProcessEnv) (jid : Option Nat)
    (djp : DependabotJobParameters) (w : Calls) (proxy : ProxyHandle) (u : UrlParts)
    (hp : w.proxyBuilderRun = Except.ok proxy)
    (hs : w.containerStart = Except.ok ())
    (hu : w.proxyUrl = Except.ok u) :
    proxyPhaseRicher env jid djp w =
      ⟨[Event.proxyBuild jid djp.jobToken djp.dependabotApiUrl djp.credentials djp.cachedMode,
        Event.containerStart,
        Event.saveState "PROXY_CONTAINER_ID" proxy.containerId] ++
        richerOutputs env proxy u w, Termination.normal⟩ := by
  unfold proxyPhaseRicher
  rw [hp, hs, hu]

/-- A normally terminating proxy phase implies the container start call
returned. -/
theorem proxyPhase_normal_start (env : ProcessEnv) (jid : Option Nat)
    (djp : DependabotJobParameters) (w : Calls)
    (h : (proxyPhaseRicher env jid djp w).termination = Termination.normal) :
    w.containerStart = Except.ok () := by
  unfold proxyPhaseRicher at h
  split at h
  · simp at h
  · split at h
    · simp at h
    · rename_i hs
      rw [hs]

/-- The proxy phase records no reportJobError, markJobAsProcessed or
setFailed event on any of its paths. -/
theorem proxyPhase_events (env : ProcessEnv) (jid : Option Nat)
    (djp : DependabotJobParameters) (w : Calls) :
    ((proxyPhaseRicher env jid djp w).trace.all
      (fun e => !(e.isReportJobError || e.isMarkJobAsProcessed || e.isSetFailed))) = true := by
  unfold proxyPhaseRicher
  split
  · rfl
  · split
    · rfl
    · split
      · rfl
      · simp [richerOutputs, Event.isReportJobError, Event.isMarkJobAsProcessed,
          Event.isSetFailed]

/-- Prepending events that are neither reports nor marks preserves the
pairing property of a trace. -/
theorem reportMarkPaired_append (a b : List Event)
    (ha : (a.all (fun e => !(e.isReportJobError || e.isMarkJobAsProcessed))) = true) :
    reportMarkPaired (a ++ b) = reportMarkPaired b := by
  induction a with
  | nil => rfl
  | cons e rest ih =>
    simp only [List.all_cons, Bool.and_eq_true] at ha
    obtain ⟨he, hrest⟩ := ha
    cases e <;> simp_all [reportMarkPaired, Event.isReportJobError, Event.isMarkJobAsProcessed]

/-- A trace without reports and marks is trivially paired. -/
theorem reportMarkPaired_of_clean (l : List Event)
    (h : (l.all (fun e => !(e.isReportJobError || e.isMarkJobAsProcessed))) = true) :
    reportMarkPaired l = true := by
  have h2 := reportMarkPaired_append l [] h
  simpa using h2

/-- A clean head preserves the pairing property. -/
theorem paired_cons_clean (e : Event) (l : List Event)
    (he : (!(e.isReportJobError || e.isMarkJobAsProcessed)) = true) :
    reportMarkPaired (e :: l) = reportMarkPaired l := by
  have ha : ([e].all (fun x => !(x.isReportJobError || x.isMarkJobAsProcessed))) = true := by
    simp only [List.all_cons, List.all_nil, Bool.and_true]
    exact he
  have h2 := reportMarkPaired_append [e] l ha
  simpa using h2

/-- Every trace of the pull phase of the richer variant is paired, as long as
the preceding fetch trace is free of reports and marks. -/
theorem paired_pullPhase (env : ProcessEnv) (fr : FetchResult)
    (djp : DependabotJobParameters) (w : Calls)
    (hclean : (fr.trace.all (fun e => !(e.isReportJobError || e.isMarkJobAsProcessed))) = true) :
    reportMarkPaired (pullPhaseRicher env fr djp w).trace = true := by
  have hppclean : ((proxyPhaseRicher env fr.jobId djp w).trace.all
      (fun e => !(e.isReportJobError || e.isMarkJobAsProcessed))) = true := by
    refine all_imp_events _ _ _ ?_ (proxyPhase_events env fr.jobId djp w)
    intro e he
    cases e <;> simp_all [Event.isReportJobError, Event.isMarkJobAsProcessed, Event.isSetFailed]
  cases hpull : w.imagePull with
  | error t =>
    cases t with
    | jsError m =>
      rw [pullPhase_error_eq env fr djp w m hpull]
      simp only []
      rw [reportMarkPaired_append _ _ hclean]
      cases hb : djp.hasApiClient <;>
        simp [failJob, hb, reportMarkPaired, Event.isReportJobError, Event.isMarkJobAsProcessed]
    | jsNonError =>
      rw [pullPhase_nonError_eq env fr djp w hpull]
      simp only []
      rw [reportMarkPaired_append _ _ hclean]
      rw [paired_cons_clean _ _ (by rfl)]
      exact reportMarkPaired_of_clean _ hppclean
  | ok v =>
    rw [pullPhase_ok_eq env fr djp w (by rw [hpull])]
    simp only []
    rw [reportMarkPaired_append _ _ hclean]
    rw [paired_cons_clean _ _ (by rfl)]
    exact reportMarkPaired_of_clean _ hppclean

end Dependabot

namespace Dependabot

/-- Run reduction (minimal variant) when the fetch returned parameters. -/
theorem runAfterFetchMin_some_eq (env : ProcessEnv) (fr : FetchResult) (w : Calls)
    (djp : DependabotJobParameters) (h : fr.result = Except.ok (some djp)) :
    runAfterFetchMinimal env fr w = pullPhaseMinimal env fr djp w := by
  unfold runAfterFetchMinimal
  rw [h]

/-- Run reduction (minimal variant) when the fetch returned null and the
environment fallback parses. -/
theorem runAfterFetchMin_none_eq (env : ProcessEnv) (fr : FetchResult) (w : Calls)
    (dfb : DependabotJobParameters) (h : fr.result = Except.ok none)
    (hf : getCredentialsFromEnv env w = Except.ok dfb) :
    runAfterFetchMinimal env fr w = pullPhaseMinimal env fr dfb w := by
  unfold runAfterFetchMinimal
  rw [h]
  simp [hf]

/-- Run reduction (minimal variant) when the fetch rethrew a non-Error. -/
theorem runAfterFetchMin_err_eq (env : ProcessEnv) (fr : FetchResult) (w : Calls)
    (t : Thrown) (h : fr.result = Except.error t) :
    runAfterFetchMinimal env fr w = ⟨fr.trace, Termination.thrown t⟩ := by
  unfold runAfterFetchMinimal
  rw [h]

/-- Run reduction (minimal variant) when the environment fallback throws. -/
theorem runAfterFetchMin_noneErr_eq (env : ProcessEnv) (fr : FetchResult) (w : Calls)
    (t : Thrown) (h : fr.result = Except.ok none)
    (hf : getCredentialsFromEnv env w = Except.error t) :
    runAfterFetchMinimal env fr w = ⟨fr.trace, Termination.thrown t⟩ := by
  unfold runAfterFetchMinimal
  rw [h]
  simp [hf]

/-- Pull-phase reduction (minimal variant) on an Error from the image pull. -/
theorem pullPhaseMin_error_eq (env : ProcessEnv) (fr : FetchResult)
    (djp : DependabotJobParameters) (w : Calls) (m : String)
    (h : w.imagePull = Except.error (Thrown.jsError m)) :
    pullPhaseMinimal env fr djp w =
      ⟨fr.trace ++ Event.pullImage PROXY_IMAGE_NAME ::
        failJob env fr.jobId djp.hasApiClient
          ("Error fetching updater images" ++ m) m DependabotErrorType.image,
       Termination.normal⟩ := by
  unfold pullPhaseMinimal
  rw [h]

/-- Pull-phase reduction (minimal variant) on a successful image pull. -/
theorem pullPhaseMin_ok_eq (env : ProcessEnv) (fr : FetchResult)
    (djp : DependabotJobParameters) (w : Calls)
    (h : w.imagePull = Except.ok ()) :
    pullPhaseMinimal env fr djp w =
      ⟨fr.trace ++ Event.pullImage PROXY_IMAGE_NAME ::
        (proxyPhaseMinimal env fr.jobId djp w).trace,
       (proxyPhaseMinimal env fr.jobId djp w).termination⟩ := by
  unfold pullPhaseMinimal
  rw [h]

/-- Pull-phase reduction (minimal variant) on a non-Error throw from the
image pull: the throw is swallowed and execution continues. -/
theorem pullPhaseMin_nonError_eq (env : ProcessEnv) (fr : FetchResult)
    (djp : DependabotJobParameters) (w : Calls)
    (h : w.imagePull = Except.error Thrown.jsNonError) :
    pullPhaseMinimal env fr djp w =
      ⟨fr.trace ++ Event.pullImage PROXY_IMAGE_NAME ::
        (proxyPhaseMinimal env fr.jobId djp w).trace,
       (proxyPhaseMinimal env fr.jobId djp w).termination⟩ := by
  unfold pullPhaseMinimal
  rw [h]

/-- Proxy-phase reduction (minimal variant) when every step succeeds. -/
theorem proxyPhaseMin_success_eq (env : ProcessEnv) (jid : Option Nat)
    (djp : DependabotJobParameters) (w : Calls) (proxy : ProxyHandle) (u : UrlParts)
    (hp : w.proxyBuilderRun = Except.ok proxy)
    (hs : w.containerStart = Except.ok ())
    (hu : w.proxyUrl = Except.ok u) :
    proxyPhaseMinimal env jid djp w =
      ⟨[Event.proxyBuild jid djp.jobToken djp.dependabotApiUrl djp.credentials djp.cachedMode,
        Event.containerStart,
        Event.saveState "PROXY_CONTAINER_ID" proxy.containerId] ++
        minimalOutputs env proxy u, Termination.normal⟩ := by
  unfold proxyPhaseMinimal
  rw [hp, hs, hu]

/-- The proxy phase of the minimal variant records no reportJobError,
markJobAsProcessed or setFailed event. -/
theorem proxyPhaseMin_events (env : ProcessEnv) (jid : Option Nat)
    (djp : DependabotJobParameters) (w : Calls) :
    ((proxyPhaseMinimal env jid djp w).trace.all
      (fun e => !(e.isReportJobError || e.isMarkJobAsProcessed || e.isSetFailed))) = true := by
  unfold proxyPhaseMinimal
  split
  · rfl
  · split
    · rfl
    · split
      · rfl
      · simp [minimalOutputs, Event.isReportJobError, Event.isMarkJobAsProcessed,
          Event.isSetFailed]

/-- Every trace of the pull phase of the minimal variant is paired, as long
as the preceding fetch trace is free of reports and marks. -/
theorem paired_pullPhaseMin (env : ProcessEnv) (fr : FetchResult)
    (djp : DependabotJobParameters) (w : Calls)
    (hclean : (fr.trace.all (fun e => !(e.isReportJobError || e.isMarkJobAsProcessed))) = true) :
    reportMarkPaired (pullPhaseMinimal env fr djp w).trace = true := by
  have hppclean : ((proxyPhaseMinimal env fr.jobId djp w).trace.all
      (fun e => !(e.isReportJobError || e.isMarkJobAsProcessed))) = true := by
    refine all_imp_events _ _ _ ?_ (proxyPhaseMin_events env fr.jobId djp w)
    intro e he
    cases e <;> simp_all [Event.isReportJobError, Event.isMarkJobAsProcessed, Event.isSetFailed]
  cases hpull : w.imagePull with
  | error t =>
    cases t with
    | jsError m =>
      rw [pullPhaseMin_error_eq env fr djp w m hpull]
      simp only []
      rw [reportMarkPaired_append _ _ hclean]
      cases hb : djp.hasApiClient <;>
        simp [failJob, hb, reportMarkPaired, Event.isReportJobError, Event.isMarkJobAsProcessed]
    | jsNonError =>
      rw [pullPhaseMin_nonError_eq env fr djp w hpull]
      simp only []
      rw [reportMarkPaired_append _ _ hclean]
      rw [paired_cons_clean _ _ (by rfl)]
      exact reportMarkPaired_of_clean _ hppclean
  | ok v =>
    rw [pullPhaseMin_ok_eq env fr djp w (by rw [hpull])]
    simp only []
    rw [reportMarkPaired_append _ _ hclean]
    rw [paired_cons_clean _ _ (by rfl)]
    exact reportMarkPaired_of_clean _ hppclean

end Dependabot

namespace Dependabot

/-- The proxy phase always records the proxyBuild event: the builder is
invoked on every path that reaches this phase. -/
theorem proxyPhase_hasBuild (env : ProcessEnv) (jid : Option Nat)
    (djp : DependabotJobParameters) (w : Calls) :
    ((proxyPhaseRicher env jid djp w).trace.any Event.isProxyBuild) = true := by
  unfold proxyPhaseRicher
  split
  · rfl
  · split
    · rfl
    · split
      · rfl
      · simp [Event.isProxyBuild]

/-- The fetch stage exports no environment variables. -/
theorem exportsOf_fetch (env : ProcessEnv) (params : Option JobParameters) (w : Calls) :
    exportsOf (getDependabotJobParameters env params w).trace = [] := by
  have h := fetch_trace_events env params w
  unfold exportsOf
  rw [List.filterMap_eq_nil_iff]
  intro e he
  have h2 := List.all_eq_true.mp h e he
  cases e <;> simp_all [Event.isSetSecret, Event.isSetFailed]

/-- The fetch stage writes no files. -/
theorem writesOf_fetch (env : ProcessEnv) (params : Option JobParameters) (w : Calls) :
    writesOf (getDependabotJobParameters env params w).trace = [] := by
  have h := fetch_trace_events env params w
  unfold writesOf
  rw [List.filterMap_eq_nil_iff]
  intro e he
  have h2 := List.all_eq_true.mp h e he
  cases e <;> simp_all [Event.isSetSecret, Event.isSetFailed]

/-- C6: on every execution of either variant of run, every markJobAsProcessed
call is immediately preceded by a reportJobError call and every
reportJobError is immediately followed by markJobAsProcessed, so no failure
path that reaches the job-control service finalizes the job without first
reporting the error. -/
theorem claimC6_report_then_mark (env : ProcessEnv) (params : Option JobParameters)
    (w : Calls) :
    reportMarkPaired (runRicher env params w).trace = true ∧
    reportMarkPaired (runMinimal env params w).trace = true := by
  have hclean := fetch_trace_clean env params w
  constructor
  · unfold runRicher
    rcases hres : (getDependabotJobParameters env params w).result with t | jp
    · rw [runAfterFetch_err_eq env _ w t hres]
      exact reportMarkPaired_of_clean _ hclean
    · cases jp with
      | some djp =>
        rw [runAfterFetch_some_eq env _ w djp hres]
        exact paired_pullPhase env _ djp w hclean
      | none =>
        rcases hf : getCredentialsFromEnv env w with t | dfb
        · rw [runAfterFetch_noneErr_eq env _ w t hres hf]
          exact reportMarkPaired_of_clean _ hclean
        · rw [runAfterFetch_none_eq env _ w dfb hres hf]
          exact paired_pullPhase env _ dfb w hclean
  · unfold runMinimal
    rcases hres : (getDependabotJobParameters env params w).result with t | jp
    · rw [runAfterFetchMin_err_eq env _ w t hres]
      exact reportMarkPaired_of_clean _ hclean
    · cases jp with
      | some djp =>
        rw [runAfterFetchMin_some_eq env _ w djp hres]
        exact paired_pullPhaseMin env _ djp w hclean
      | none =>
        rcases hf : getCredentialsFromEnv env w with t | dfb
        · rw [runAfterFetchMin_noneErr_eq env _ w t hres hf]
          exact reportMarkPaired_of_clean _ hclean
        · rw [runAfterFetchMin_none_eq env _ w dfb hres hf]
          exact paired_pullPhaseMin env _ dfb w hclean

/-- C1: evaluated at a concrete execution in which the job details and
credentials were fetched successfully and the proxy builder then throws an
Error, run terminates by rethrowing the exception and its trace contains
neither a reportJobError nor a markJobAsProcessed call, so the failure is
never reported to the job-control service. -/
theorem claimC1_proxy_failure_unreported :
    (runRicher envEmpty (some paramsSample) callsProxyThrow).termination =
      Termination.thrown (Thrown.jsError "network create failed") ∧
    ((runRicher envEmpty (some paramsSample) callsProxyThrow).trace.all
      (fun e => !(e.isReportJobError || e.isMarkJobAsProcessed))) = true := by
  decide

/-- C5 counterexample: on the path where job parameters are unavailable
(params is null) and credentials come from the environment, run constructs
the ProxyBuilder with cachedMode set to true even though no job experiment
flag was consulted: cached mode is a silent default on this path. -/
theorem claimC5_counterexample :
    Event.proxyBuild none "" "" [] true ∈ (runRicher envEmpty none callsAllOk).trace := by
  decide

/-- C5 amended: when job parameters are fetched from the service, cachedMode
equals the presence of the proxy-cached experiment flag; but on the
environment-credentials fallback path cachedMode is unconditionally true. -/
theorem claimC5_cachedMode :
    (∀ (env : ProcessEnv) (p : JobParameters) (w : Calls) (d : JobDetails)
      (creds : List Credential),
      ¬ jsOr env.githubDependabotJobToken p.jobToken = "" →
      ¬ jsOr env.githubDependabotCredToken p.credentialsToken = "" →
      w.getJobDetails = Except.ok d → w.getCredentials = Except.ok creds →
      ∃ djp, (getDependabotJobParameters env (some p) w).result = Except.ok (some djp) ∧
        djp.cachedMode = cachedModeOf d) ∧
    (∀ (env : ProcessEnv) (w : Calls) (djp : DependabotJobParameters),
      getCredentialsFromEnv env w = Except.ok djp → djp.cachedMode = true) := by
  constructor
  · intro env p w d creds hjt hct hd hc
    refine ⟨⟨jsOr env.githubDependabotJobToken p.jobToken, p.dependabotApiUrl,
      cachedModeOf d, creds, true⟩, ?_, rfl⟩
    rw [fetch_success_eq env p w d creds hjt hct hd hc]
  · intro env w djp h
    exact (fallback_inv env w djp h).2.1

/-- C5 witness: the amended statement evaluated at concrete inputs: a fetch
in the callsAllOk world yields cachedMode false (no flag present), and the
fallback parameters carry cachedMode true. -/
theorem claimC5_cachedMode_witness :
    ((¬ jsOr envEmpty.githubDependabotJobToken paramsSample.jobToken = "") ∧
     (¬ jsOr envEmpty.githubDependabotCredToken paramsSample.credentialsToken = "") ∧
     callsAllOk.getJobDetails = Except.ok detailsNoFlags ∧
     callsAllOk.getCredentials = Except.ok [] ∧
     (∃ djp, (getDependabotJobParameters envEmpty (some paramsSample) callsAllOk).result =
        Except.ok (some djp) ∧ djp.cachedMode = cachedModeOf detailsNoFlags)) ∧
    (getCredentialsFromEnv envEmpty callsAllOk =
        Except.ok (⟨"", "", true, [], false⟩ : DependabotJobParameters) ∧
     (⟨"", "", true, [], false⟩ : DependabotJobParameters).cachedMode = true) := by
  constructor
  · exact ⟨by decide, by decide, by decide, by decide,
      claimC5_cachedMode.1 envEmpty paramsSample callsAllOk detailsNoFlags []
        (by decide) (by decide) (by decide) (by decide)⟩
  · exact ⟨by decide,
      claimC5_cachedMode.2 envEmpty callsAllOk ⟨"", "", true, [], false⟩ (by decide)⟩

end Dependabot

namespace Dependabot

/-- C2 counterexample: at a concrete execution in which fetching the job
details throws an Error (an unauthorized response), run nevertheless
continues into the image-pull and proxy-construction stages, contradicting
the claim that no further pipeline stage is executed. -/
theorem claimC2_counterexample :
    ((runRicher envEmpty (some paramsSample) callsDetailsThrow).trace.any
      Event.isPullImage) = true ∧
    ((runRicher envEmpty (some paramsSample) callsDetailsThrow).trace.any
      Event.isProxyBuild) = true := by
  decide

/-- C2 amended: when fetching job details or credentials throws an Error, no
reportJobError is ever sent and the run is marked failed with a local
diagnostic, but the pipeline does not stop: run falls back to environment
credentials and still executes the image-pull stage (and beyond) with no
apiClient. -/
theorem claimC2_fetch_failure_local_only (env : ProcessEnv) (p : JobParameters)
    (w : Calls) (m : String) (dfb : DependabotJobParameters)
    (hjt : ¬ jsOr env.githubDependabotJobToken p.jobToken = "")
    (hct : ¬ jsOr env.githubDependabotCredToken p.credentialsToken = "")
    (hfail : w.getJobDetails = Except.error (Thrown.jsError m) ∨
      (∃ d, w.getJobDetails = Except.ok d ∧
        w.getCredentials = Except.error (Thrown.jsError m)))
    (hf : getCredentialsFromEnv env w = Except.ok dfb) :
    ((runRicher env (some p) w).trace.any Event.isSetFailed) = true ∧
    ((runRicher env (some p) w).trace.all (fun e => !e.isReportJobError)) = true ∧
    ((runRicher env (some p) w).trace.any Event.isPullImage) = true := by
  have hfetch : getDependabotJobParameters env (some p) w =
      ⟨[Event.setSecret (jsOr env.githubDependabotJobToken p.jobToken),
        Event.setSecret (jsOr env.githubDependabotCredToken p.credentialsToken),
        Event.setFailed (setFailedMessage env (some p.jobId)
          "Dependabot encountered an unexpected problem" (some ("Error: " ++ m)))],
       some p.jobId, Except.ok none⟩ := by
    rcases hfail with hd | ⟨d, hd, hc⟩
    · exact fetch_detailsError_eq env p w m hjt hct hd
    · exact fetch_credsError_eq env p w d m hjt hct hd hc
  have hapi := (fallback_inv env w dfb hf).1
  have hppclean : ((proxyPhaseRicher env (some p.jobId) dfb w).trace.all
      (fun e => !e.isReportJobError)) = true := by
    refine all_imp_events _ _ _ ?_ (proxyPhase_events env (some p.jobId) dfb w)
    intro e he
    cases e <;> simp_all [Event.isReportJobError, Event.isMarkJobAsProcessed, Event.isSetFailed]
  unfold runRicher
  rw [hfetch]
  rw [runAfterFetch_none_eq env _ w dfb rfl hf]
  cases hpull : w.imagePull with
  | error t =>
    cases t with
    | jsError m2 =>
      rw [pullPhase_error_eq env _ dfb w m2 hpull]
      simp [failJob, hapi, Event.isSetFailed, Event.isReportJobError, Event.isPullImage,
        Event.isSetSecret]
    | jsNonError =>
      rw [pullPhase_nonError_eq env _ dfb w hpull]
      refine ⟨by simp [Event.isSetFailed], ?_, by simp [Event.isPullImage]⟩
      rw [List.all_append, Bool.and_eq_true]
      refine ⟨by simp [Event.isReportJobError], ?_⟩
      rw [List.all_cons, Bool.and_eq_true]
      exact ⟨by rfl, hppclean⟩
  | ok v =>
    rw [pullPhase_ok_eq env _ dfb w (by rw [hpull])]
    refine ⟨by simp [Event.isSetFailed], ?_, by simp [Event.isPullImage]⟩
    rw [List.all_append, Bool.and_eq_true]
    refine ⟨by simp [Event.isReportJobError], ?_⟩
    rw [List.all_cons, Bool.and_eq_true]
    exact ⟨by rfl, hppclean⟩

end Dependabot

namespace Dependabot

/-- C3: when the parameters and credentials were fetched successfully and the
image pull throws an Error, run sends a reportJobError with error type
actions_workflow_image immediately followed by markJobAsProcessed, fails the
run locally, terminates normally (returns), and never emits a proxyBuild or
containerStart event. -/
theorem claimC3_image_pull_error_reported (env : ProcessEnv) (p : JobParameters)
    (w : Calls) (d : JobDetails) (creds : List Credential) (m : String)
    (hjt : ¬ jsOr env.githubDependabotJobToken p.jobToken = "")
    (hct : ¬ jsOr env.githubDependabotCredToken p.credentialsToken = "")
    (hd : w.getJobDetails = Except.ok d)
    (hc : w.getCredentials = Except.ok creds)
    (hpull : w.imagePull = Except.error (Thrown.jsError m)) :
    (∃ pre post, (runRicher env (some p) w).trace =
      pre ++ Event.reportJobError "actions_workflow_image" m ::
        Event.markJobAsProcessed :: post) ∧
    ((runRicher env (some p) w).trace.all
      (fun e => !(e.isProxyBuild || e.isContainerStart))) = true ∧
    ((runRicher env (some p) w).trace.any Event.isSetFailed) = true ∧
    (runRicher env (some p) w).termination = Termination.normal := by
  have hfetch := fetch_success_eq env p w d creds hjt hct hd hc
  unfold runRicher
  rw [hfetch]
  rw [runAfterFetch_some_eq env _ w _ rfl]
  rw [pullPhase_error_eq env _ _ w m hpull]
  refine ⟨?_, ?_, ?_, rfl⟩
  · refine ⟨[Event.setSecret (jsOr env.githubDependabotJobToken p.jobToken),
      Event.setSecret (jsOr env.githubDependabotCredToken p.credentialsToken),
      Event.pullImage PROXY_IMAGE_NAME],
      [Event.setFailed (setFailedMessage env (some p.jobId)
        ("Error fetching updater images" ++ m) (some ("Error: " ++ m)))], ?_⟩
    simp [failJob, DependabotErrorType.value]
  · simp [failJob, Event.isProxyBuild, Event.isContainerStart]
  · simp [failJob, Event.isSetFailed]

/-- C3 witness: the theorem applied at a concrete world in which the image
pull throws an Error. -/
theorem claimC3_witness :
    ((¬ jsOr envEmpty.githubDependabotJobToken paramsSample.jobToken = "") ∧
     (¬ jsOr envEmpty.githubDependabotCredToken paramsSample.credentialsToken = "") ∧
     callsPullError.getJobDetails = Except.ok detailsNoFlags ∧
     callsPullError.getCredentials = Except.ok [] ∧
     callsPullError.imagePull = Except.error (Thrown.jsError "pull refused")) ∧
    ((∃ pre post, (runRicher envEmpty (some paramsSample) callsPullError).trace =
      pre ++ Event.reportJobError "actions_workflow_image" "pull refused" ::
        Event.markJobAsProcessed :: post) ∧
     ((runRicher envEmpty (some paramsSample) callsPullError).trace.all
      (fun e => !(e.isProxyBuild || e.isContainerStart))) = true ∧
     ((runRicher envEmpty (some paramsSample) callsPullError).trace.any
      Event.isSetFailed) = true ∧
     (runRicher envEmpty (some paramsSample) callsPullError).termination =
       Termination.normal) := by
  refine ⟨⟨by decide, by decide, by decide, by decide, by decide⟩, ?_⟩
  exact claimC3_image_pull_error_reported envEmpty paramsSample callsPullError
    detailsNoFlags [] "pull refused" (by decide) (by decide) (by decide) (by decide) (by decide)

/-- C9: when the parameters were fetched successfully and the image pull
throws a value that is not an Error instance, the catch block matches
nothing: run neither reports remotely, nor marks the job processed, nor
fails the run locally, and execution continues into proxy construction. -/
theorem claimC9_nonError_pull_swallowed (env : ProcessEnv) (p : JobParameters)
    (w : Calls) (d : JobDetails) (creds : List Credential)
    (hjt : ¬ jsOr env.githubDependabotJobToken p.jobToken = "")
    (hct : ¬ jsOr env.githubDependabotCredToken p.credentialsToken = "")
    (hd : w.getJobDetails = Except.ok d)
    (hc : w.getCredentials = Except.ok creds)
    (hpull : w.imagePull = Except.error Thrown.jsNonError) :
    ((runRicher env (some p) w).trace.any Event.isProxyBuild) = true ∧
    ((runRicher env (some p) w).trace.all
      (fun e => !(e.isReportJobError || e.isMarkJobAsProcessed || e.isSetFailed))) = true := by
  have hfetch := fetch_success_eq env p w d creds hjt hct hd hc
  unfold runRicher
  rw [hfetch]
  rw [runAfterFetch_some_eq env _ w _ rfl]
  rw [pullPhase_nonError_eq env _ _ w hpull]
  constructor
  · have hb := proxyPhase_hasBuild env (some p.jobId)
      (⟨jsOr env.githubDependabotJobToken p.jobToken, p.dependabotApiUrl,
        cachedModeOf d, creds, true⟩ : DependabotJobParameters) w
    rw [List.any_append, Bool.or_eq_true]
    refine Or.inr ?_
    rw [List.any_cons, Bool.or_eq_true]
    exact Or.inr hb
  · rw [List.all_append, Bool.and_eq_true]
    refine ⟨by simp [Event.isReportJobError, Event.isMarkJobAsProcessed, Event.isSetFailed,
      Event.isSetSecret], ?_⟩
    rw [List.all_cons, Bool.and_eq_true]
    exact ⟨by rfl, proxyPhase_events env (some p.jobId) _ w⟩

/-- C9 witness: the theorem applied at a concrete world in which the image
pull throws a non-Error value. -/
theorem claimC9_witness :
    ((¬ jsOr envEmpty.githubDependabotJobToken paramsSample.jobToken = "") ∧
     (¬ jsOr envEmpty.githubDependabotCredToken paramsSample.credentialsToken = "") ∧
     callsPullNonError.getJobDetails = Except.ok detailsNoFlags ∧
     callsPullNonError.getCredentials = Except.ok [] ∧
     callsPullNonError.imagePull = Except.error Thrown.jsNonError) ∧
    (((runRicher envEmpty (some paramsSample) callsPullNonError).trace.any
      Event.isProxyBuild) = true ∧
     ((runRicher envEmpty (some paramsSample) callsPullNonError).trace.all
      (fun e => !(e.isReportJobError || e.isMarkJobAsProcessed || e.isSetFailed))) = true) := by
  refine ⟨⟨by decide, by decide, by decide, by decide, by decide⟩, ?_⟩
  exact claimC9_nonError_pull_swallowed envEmpty paramsSample callsPullNonError
    detailsNoFlags [] (by decide) (by decide) (by decide) (by decide) (by decide)

end Dependabot

namespace Dependabot

/-- C2 witness: the amended theorem applied at a concrete world in which
fetching the job details throws an unauthorized Error. -/
theorem claimC2_witness :
    ((¬ jsOr envEmpty.githubDependabotJobToken paramsSample.jobToken = "") ∧
     (¬ jsOr envEmpty.githubDependabotCredToken paramsSample.credentialsToken = "") ∧
     callsDetailsThrow.getJobDetails = Except.error (Thrown.jsError "401 Unauthorized") ∧
     getCredentialsFromEnv envEmpty callsDetailsThrow =
       Except.ok (⟨"", "", true, [], false⟩ : DependabotJobParameters)) ∧
    (((runRicher envEmpty (some paramsSample) callsDetailsThrow).trace.any
        Event.isSetFailed) = true ∧
     ((runRicher envEmpty (some paramsSample) callsDetailsThrow).trace.all
        (fun e => !e.isReportJobError)) = true ∧
     ((runRicher envEmpty (some paramsSample) callsDetailsThrow).trace.any
        Event.isPullImage) = true) := by
  refine ⟨⟨by decide, by decide, by decide, by decide⟩, ?_⟩
  exact claimC2_fetch_failure_local_only envEmpty paramsSample callsDetailsThrow
    "401 Unauthorized" ⟨"", "", true, [], false⟩ (by decide) (by decide)
    (Or.inl (by decide)) (by decide)

/-- On a normal termination of the richer run with a successful image pull,
proxy build and URL poll, both variants reduce to the same prefix followed by
their respective output blocks. -/
theorem run_success_both (env : ProcessEnv) (params : Option JobParameters) (w : Calls)
    (proxy : ProxyHandle) (u : UrlParts)
    (hterm : (runRicher env params w).termination = Termination.normal)
    (himg : w.imagePull = Except.ok ())
    (hpx : w.proxyBuilderRun = Except.ok proxy)
    (hurl : w.proxyUrl = Except.ok u) :
    ∃ djp : DependabotJobParameters,
      runRicher env params w =
        ⟨(getDependabotJobParameters env params w).trace ++
          Event.pullImage PROXY_IMAGE_NAME ::
          ([Event.proxyBuild (getDependabotJobParameters env params w).jobId djp.jobToken
              djp.dependabotApiUrl djp.credentials djp.cachedMode,
            Event.containerStart,
            Event.saveState "PROXY_CONTAINER_ID" proxy.containerId] ++
           richerOutputs env proxy u w), Termination.normal⟩ ∧
      runMinimal env params w =
        ⟨(getDependabotJobParameters env params w).trace ++
          Event.pullImage PROXY_IMAGE_NAME ::
          ([Event.proxyBuild (getDependabotJobParameters env params w).jobId djp.jobToken
              djp.dependabotApiUrl djp.credentials djp.cachedMode,
            Event.containerStart,
            Event.saveState "PROXY_CONTAINER_ID" proxy.containerId] ++
           minimalOutputs env proxy u), Termination.normal⟩ := by
  unfold runRicher at hterm
  rcases hres : (getDependabotJobParameters env params w).result with t | jp
  · rw [runAfterFetch_err_eq env _ w t hres] at hterm
    exact absurd hterm (by simp)
  · cases jp with
    | some djp =>
      rw [runAfterFetch_some_eq env _ w djp hres] at hterm
      rw [pullPhase_ok_eq env _ djp w himg] at hterm
      have hs := proxyPhase_normal_start env _ djp w hterm
      have hpp := proxyPhase_success_eq env
        (getDependabotJobParameters env params w).jobId djp w proxy u hpx hs hurl
      refine ⟨djp, ?_, ?_⟩
      · unfold runRicher
        rw [runAfterFetch_some_eq env _ w djp hres, pullPhase_ok_eq env _ djp w himg, hpp]
      · unfold runMinimal
        rw [runAfterFetchMin_some_eq env _ w djp hres, pullPhaseMin_ok_eq env _ djp w himg,
          proxyPhaseMin_success_eq env _ djp w proxy u hpx hs hurl]
    | none =>
      rcases hfb : getCredentialsFromEnv env w with t | dfb
      · rw [runAfterFetch_noneErr_eq env _ w t hres hfb] at hterm
        exact absurd hterm (by simp)
      · rw [runAfterFetch_none_eq env _ w dfb hres hfb] at hterm
        rw [pullPhase_ok_eq env _ dfb w himg] at hterm
        have hs := proxyPhase_normal_start env _ dfb w hterm
        have hpp := proxyPhase_success_eq env
          (getDependabotJobParameters env params w).jobId dfb w proxy u hpx hs hurl
        refine ⟨dfb, ?_, ?_⟩
        · unfold runRicher
          rw [runAfterFetch_none_eq env _ w dfb hres hfb, pullPhase_ok_eq env _ dfb w himg, hpp]
        · unfold runMinimal
          rw [runAfterFetchMin_none_eq env _ w dfb hres hfb, pullPhaseMin_ok_eq env _ dfb w himg,
            proxyPhaseMin_success_eq env _ dfb w proxy u hpx hs hurl]

end Dependabot

namespace Dependabot

/-- C7: every successful execution of the richer run writes the PKCS12 trust
store at the resolved keystore.p12 path protected by the fixed password
changeit, writes the PEM export of the proxy CA certificate at cert.pem, and
exports the proxy host, proxy port, trust-store path, CA certificate path
and isolated-network name. -/
theorem claimC7_success_outputs (env : ProcessEnv) (params : Option JobParameters)
    (w : Calls) (proxy : ProxyHandle) (u : UrlParts)
    (hterm : (runRicher env params w).termination = Termination.normal)
    (himg : w.imagePull = Except.ok ())
    (hpx : w.proxyBuilderRun = Except.ok proxy)
    (hurl : w.proxyUrl = Except.ok u) :
    Event.writeFile (resolvePath w.cwd "keystore.p12")
      (FileData.pkcs12Der (some w.dummyKeyDer) proxy.cert (some "changeit")
        (some ⟨"3des", "mykey", false, true, 10000, 20⟩)) ∈ (runRicher env params w).trace ∧
    Event.writeFile (resolvePath w.cwd "cert.pem") (FileData.text proxy.cert) ∈
      (runRicher env params w).trace ∧
    Event.exportVariable "PROXY_HOST" u.hostname ∈ (runRicher env params w).trace ∧
    Event.exportVariable "PROXY_PORT" u.port ∈ (runRicher env params w).trace ∧
    Event.exportVariable "CODEQL_JAVA_EXTRACTOR_TRUST_STORE_PATH"
      (resolvePath w.cwd "keystore.p12") ∈ (runRicher env params w).trace ∧
    Event.exportVariable "PROXY_CA_CERT" (resolvePath w.cwd "cert.pem") ∈
      (runRicher env params w).trace ∧
    Event.exportVariable "PROXY_NETWORK_NAME" proxy.networkName ∈
      (runRicher env params w).trace := by
  obtain ⟨djp, hrich, -⟩ := run_success_both env params w proxy u hterm himg hpx hurl
  rw [hrich]
  refine ⟨?_, ?_, ?_, ?_, ?_, ?_, ?_⟩ <;>
    simp [richerOutputs, List.mem_append, List.mem_cons]

/-- C7 witness: the theorem applied at a concrete all-success world. -/
theorem claimC7_witness :
    ((runRicher envEmpty (some paramsSample) callsAllOk).termination =
        Termination.normal ∧
     callsAllOk.imagePull = Except.ok () ∧
     callsAllOk.proxyBuilderRun = Except.ok proxySample ∧
     callsAllOk.proxyUrl = Except.ok urlSample) ∧
    (Event.writeFile (resolvePath callsAllOk.cwd "keystore.p12")
      (FileData.pkcs12Der (some callsAllOk.dummyKeyDer) proxySample.cert (some "changeit")
        (some ⟨"3des", "mykey", false, true, 10000, 20⟩)) ∈
        (runRicher envEmpty (some paramsSample) callsAllOk).trace ∧
     Event.writeFile (resolvePath callsAllOk.cwd "cert.pem")
      (FileData.text proxySample.cert) ∈
        (runRicher envEmpty (some paramsSample) callsAllOk).trace ∧
     Event.exportVariable "PROXY_HOST" urlSample.hostname ∈
        (runRicher envEmpty (some paramsSample) callsAllOk).trace ∧
     Event.exportVariable "PROXY_PORT" urlSample.port ∈
        (runRicher envEmpty (some paramsSample) callsAllOk).trace ∧
     Event.exportVariable "CODEQL_JAVA_EXTRACTOR_TRUST_STORE_PATH"
      (resolvePath callsAllOk.cwd "keystore.p12") ∈
        (runRicher envEmpty (some paramsSample) callsAllOk).trace ∧
     Event.exportVariable "PROXY_CA_CERT" (resolvePath callsAllOk.cwd "cert.pem") ∈
        (runRicher envEmpty (some paramsSample) callsAllOk).trace ∧
     Event.exportVariable "PROXY_NETWORK_NAME" proxySample.networkName ∈
        (runRicher envEmpty (some paramsSample) callsAllOk).trace) := by
  refine ⟨⟨by decide, by decide, by decide, by decide⟩, ?_⟩
  exact claimC7_success_outputs envEmpty (some paramsSample) callsAllOk proxySample urlSample
    (by decide) (by decide) (by decide) (by decide)

/-- C10: on every successful execution of the richer run, each of MAVEN_OPTS,
GRADLE_OPTS and SEMMLE_JAVA_EXTRACTOR_JVM_ARGS is exported with the
pre-existing environment value appended as a suffix of the new value (the
empty string when the variable is unset), not overwritten. -/
theorem claimC10_env_vars_appended (env : ProcessEnv) (params : Option JobParameters)
    (w : Calls) (proxy : ProxyHandle) (u : UrlParts)
    (hterm : (runRicher env params w).termination = Termination.normal)
    (himg : w.imagePull = Except.ok ())
    (hpx : w.proxyBuilderRun = Except.ok proxy)
    (hurl : w.proxyUrl = Except.ok u) :
    (∃ pfx, Event.exportVariable "MAVEN_OPTS" (pfx ++ jsOr env.mavenOpts "") ∈
      (runRicher env params w).trace) ∧
    (∃ pfx, Event.exportVariable "GRADLE_OPTS" (pfx ++ jsOr env.gradleOpts "") ∈
      (runRicher env params w).trace) ∧
    (∃ pfx, Event.exportVariable "SEMMLE_JAVA_EXTRACTOR_JVM_ARGS"
      (pfx ++ jsOr env.semmleJavaExtractorJvmArgs "") ∈ (runRicher env params w).trace) := by
  obtain ⟨djp, hrich, -⟩ := run_success_both env params w proxy u hterm himg hpx hurl
  rw [hrich]
  refine ⟨⟨"-Djavax.net.ssl.trustStore=" ++ resolvePath w.cwd "keystore.p12" ++
      " -Djavax.net.ssl.trustStoreType=PKCS12 -Djavax.net.ssl.trustStorePassword=" ++
      "changeit" ++ " -DproxySet=true " ++
      ("-Dhttp.proxyHost=" ++ u.hostname ++ " -Dhttp.proxyPort=" ++ u.port ++
        " -Dhttps.proxyHost=" ++ u.hostname ++ " -Dhttps.proxyPort=" ++ u.port) ++ " ", ?_⟩,
    ⟨"-Djavax.net.ssl.trustStore=" ++ resolvePath w.cwd "keystore.p12" ++
      " -Djavax.net.ssl.trustStoreType=PKCS12 -Djavax.net.ssl.trustStorePassword=" ++
      "changeit" ++ " " ++
      ("-Dhttp.proxyHost=" ++ u.hostname ++ " -Dhttp.proxyPort=" ++ u.port ++
        " -Dhttps.proxyHost=" ++ u.hostname ++ " -Dhttps.proxyPort=" ++ u.port) ++ " ", ?_⟩,
    ⟨"-Djavax.net.ssl.trustStore=" ++ resolvePath w.cwd "keystore.p12" ++
      " -Djavax.net.ssl.trustStoreType=PKCS12 -Djavax.net.ssl.trustStorePassword=" ++
      "changeit" ++ " " ++
      ("-Dhttp.proxyHost=" ++ u.hostname ++ " -Dhttp.proxyPort=" ++ u.port ++
        " -Dhttps.proxyHost=" ++ u.hostname ++ " -Dhttps.proxyPort=" ++ u.port) ++ " ", ?_⟩⟩ <;>
    simp [richerOutputs, List.mem_append, List.mem_cons]

/-- C10 witness: the theorem applied at a concrete all-success world with a
pre-existing MAVEN_OPTS value. -/
theorem claimC10_witness :
    ((runRicher envMaven (some paramsSample) callsAllOk).termination =
        Termination.normal ∧
     callsAllOk.imagePull = Except.ok () ∧
     callsAllOk.proxyBuilderRun = Except.ok proxySample ∧
     callsAllOk.proxyUrl = Except.ok urlSample) ∧
    ((∃ pfx, Event.exportVariable "MAVEN_OPTS" (pfx ++ jsOr envMaven.mavenOpts "") ∈
      (runRicher envMaven (some paramsSample) callsAllOk).trace) ∧
     (∃ pfx, Event.exportVariable "GRADLE_OPTS" (pfx ++ jsOr envMaven.gradleOpts "") ∈
      (runRicher envMaven (some paramsSample) callsAllOk).trace) ∧
     (∃ pfx, Event.exportVariable "SEMMLE_JAVA_EXTRACTOR_JVM_ARGS"
      (pfx ++ jsOr envMaven.semmleJavaExtractorJvmArgs "") ∈
      (runRicher envMaven (some paramsSample) callsAllOk).trace)) := by
  refine ⟨⟨by decide, by decide, by decide, by decide⟩, ?_⟩
  exact claimC10_env_vars_appended envMaven (some paramsSample) callsAllOk proxySample
    urlSample (by decide) (by decide) (by decide) (by decide)

end Dependabot

namespace Dependabot

/-- Exported variables distribute over trace concatenation. -/
theorem exportsOf_append (a b : List Event) :
    exportsOf (a ++ b) = exportsOf a ++ exportsOf b := by
  unfold exportsOf
  exact List.filterMap_append a b _

/-- File writes distribute over trace concatenation. -/
theorem writesOf_append (a b : List Event) :
    writesOf (a ++ b) = writesOf a ++ writesOf b := by
  unfold writesOf
  exact List.filterMap_append a b _

/-- C8 counterexample: at a concrete all-success execution, the minimal
variant produces an exported variable value and a file write that the richer
variant does not produce: its effects are not a subset of the richer
variant taken with their values. -/
theorem claimC8_counterexample :
    (¬ (exportsOf (runMinimal envEmpty (some paramsSample) callsAllOk).trace ⊆
        exportsOf (runRicher envEmpty (some paramsSample) callsAllOk).trace)) ∧
    (¬ (writesOf (runMinimal envEmpty (some paramsSample) callsAllOk).trace ⊆
        writesOf (runRicher envEmpty (some paramsSample) callsAllOk).trace)) := by
  decide

/-- C8 amended: on a common successful execution the minimal variant touches
a subset of the effect targets of the richer variant (its exported variable
names are among the richer ones, and its single keystore.p12 write has a
counterpart written by the richer variant at the resolved path), and the
richer variant produces effects the minimal one does not; but the values
differ: the minimal keystore is unprotected and its Java options carry no
trust-store password. -/
theorem claimC8_effect_names_subset (env : ProcessEnv) (params : Option JobParameters)
    (w : Calls) (proxy : ProxyHandle) (u : UrlParts)
    (hterm : (runRicher env params w).termination = Termination.normal)
    (himg : w.imagePull = Except.ok ())
    (hpx : w.proxyBuilderRun = Except.ok proxy)
    (hurl : w.proxyUrl = Except.ok u) :
    ((exportsOf (runMinimal env params w).trace).map Prod.fst ⊆
      (exportsOf (runRicher env params w).trace).map Prod.fst) ∧
    writesOf (runMinimal env params w).trace =
      [("keystore.p12", FileData.pkcs12Der none proxy.cert none none)] ∧
    (∃ q ∈ writesOf (runRicher env params w).trace, ∃ pfx, q.1 = pfx ++ "keystore.p12") ∧
    ("PROXY_HOST" ∈ (exportsOf (runRicher env params w).trace).map Prod.fst ∧
     "PROXY_HOST" ∉ (exportsOf (runMinimal env params w).trace).map Prod.fst) := by
  obtain ⟨djp, hrich, hmin⟩ := run_success_both env params w proxy u hterm himg hpx hurl
  rw [hrich, hmin]
  have hfe := exportsOf_fetch env params w
  have hfw := writesOf_fetch env params w
  refine ⟨?_, ?_, ?_, ?_, ?_⟩
  · intro n hn
    simp only [exportsOf_append, hfe, List.nil_append] at hn ⊢
    simp only [exportsOf, List.filterMap_cons, List.filterMap_append, List.filterMap_nil,
      richerOutputs, minimalOutputs] at hn ⊢
    simp at hn ⊢
    rcases hn with h | h <;> simp [h]
  · simp only [writesOf_append, hfw, List.nil_append]
    simp [writesOf, minimalOutputs, List.filterMap_cons]
  · refine ⟨(resolvePath w.cwd "keystore.p12",
      FileData.pkcs12Der (some w.dummyKeyDer) proxy.cert (some "changeit")
        (some ⟨"3des", "mykey", false, true, 10000, 20⟩)), ?_, w.cwd ++ "/", rfl⟩
    simp only [writesOf_append, hfw, List.nil_append]
    simp [writesOf, richerOutputs, List.filterMap_cons, List.filterMap_append]
  · simp only [exportsOf_append, hfe, List.nil_append]
    simp [exportsOf, richerOutputs, List.filterMap_cons, List.filterMap_append]
  · simp only [exportsOf_append, hfe, List.nil_append]
    simp [exportsOf, minimalOutputs, List.filterMap_cons, List.filterMap_append]

end Dependabot

namespace Dependabot

/-- C8 witness: the amended theorem applied at a concrete all-success world. -/
theorem claimC8_witness :
    ((runRicher envEmpty (some paramsSample) callsAllOk).termination =
        Termination.normal ∧
     callsAllOk.imagePull = Except.ok () ∧
     callsAllOk.proxyBuilderRun = Except.ok proxySample ∧
     callsAllOk.proxyUrl = Except.ok urlSample) ∧
    (((exportsOf (runMinimal envEmpty (some paramsSample) callsAllOk).trace).map Prod.fst ⊆
       (exportsOf (runRicher envEmpty (some paramsSample) callsAllOk).trace).map Prod.fst) ∧
     writesOf (runMinimal envEmpty (some paramsSample) callsAllOk).trace =
       [("keystore.p12", FileData.pkcs12Der none proxySample.cert none none)] ∧
     (∃ q ∈ writesOf (runRicher envEmpty (some paramsSample) callsAllOk).trace,
       ∃ pfx, q.1 = pfx ++ "keystore.p12") ∧
     ("PROXY_HOST" ∈
        (exportsOf (runRicher envEmpty (some paramsSample) callsAllOk).trace).map Prod.fst ∧
      "PROXY_HOST" ∉
        (exportsOf (runMinimal envEmpty (some paramsSample) callsAllOk).trace).map Prod.fst)) := by
  refine ⟨⟨by decide, by decide, by decide, by decide⟩, ?_⟩
  exact claimC8_effect_names_subset envEmpty (some paramsSample) callsAllOk proxySample
    urlSample (by decide) (by decide) (by decide) (by decide)

end Dependabot

namespace Dependabot

/-- A pullImage event contributes no file write. -/
theorem writesOf_cons_pullImage (i : String) (l : List Event) :
    writesOf (Event.pullImage i :: l) = writesOf l := by
  simp [writesOf]

/-- The traces and result shapes of the fetch stage agree for two worlds that
differ only in the credential values returned by getCredentials and by the
environment-credential JSON parse. -/
theorem fetch_rel (env : ProcessEnv) (params : Option JobParameters) (w : Calls)
    (c1 c2 e1 e2 : List Credential) :
    (getDependabotJobParameters env params
        { w with getCredentials := Except.ok c1, parseEnvCredentials := Except.ok e1 }).trace =
      (getDependabotJobParameters env params
        { w with getCredentials := Except.ok c2, parseEnvCredentials := Except.ok e2 }).trace ∧
    ((∃ t, (getDependabotJobParameters env params
        { w with getCredentials := Except.ok c1, parseEnvCredentials := Except.ok e1 }).result =
          Except.error t ∧
      (getDependabotJobParameters env params
        { w with getCredentials := Except.ok c2, parseEnvCredentials := Except.ok e2 }).result =
          Except.error t) ∨
     ((getDependabotJobParameters env params
        { w with getCredentials := Except.ok c1, parseEnvCredentials := Except.ok e1 }).result =
          Except.ok none ∧
      (getDependabotJobParameters env params
        { w with getCredentials := Except.ok c2, parseEnvCredentials := Except.ok e2 }).result =
          Except.ok none) ∨
     (∃ djp1 djp2, (getDependabotJobParameters env params
        { w with getCredentials := Except.ok c1, parseEnvCredentials := Except.ok e1 }).result =
          Except.ok (some djp1) ∧
      (getDependabotJobParameters env params
        { w with getCredentials := Except.ok c2, parseEnvCredentials := Except.ok e2 }).result =
          Except.ok (some djp2))) := by
  unfold getDependabotJobParameters
  cases params with
  | none => exact ⟨rfl, Or.inr (Or.inl ⟨rfl, rfl⟩)⟩
  | some p =>
    dsimp only
    by_cases hjt : jsOr env.githubDependabotJobToken p.jobToken = ""
    · simp only [if_pos hjt]
      refine ⟨?_, Or.inr (Or.inl ⟨?_, ?_⟩)⟩ <;> trivial
    · simp only [if_neg hjt]
      by_cases hct : jsOr env.githubDependabotCredToken p.credentialsToken = ""
      · simp only [if_pos hct]
        refine ⟨?_, Or.inr (Or.inl ⟨?_, ?_⟩)⟩ <;> trivial
      · simp only [if_neg hct]
        cases hd : w.getJobDetails with
        | error t =>
          cases t with
          | jsError m => exact ⟨rfl, Or.inr (Or.inl ⟨rfl, rfl⟩)⟩
          | jsNonError => exact ⟨rfl, Or.inl ⟨Thrown.jsNonError, rfl, rfl⟩⟩
        | ok d =>
          exact ⟨rfl, Or.inr (Or.inr ⟨_, _, rfl, rfl⟩)⟩

/-- The file writes of the pull phase are the same for two worlds and
parameter records that may differ in credential data (and in any field the
writes do not mention), as long as the fetch traces and the pull, proxy,
container, URL, dummy-key, working-directory and home-directory data agree. -/
theorem writes_pullPhase_indep (env : ProcessEnv) (fr1 fr2 : FetchResult)
    (djp1 djp2 : DependabotJobParameters) (w1 w2 : Calls)
    (htr : fr1.trace = fr2.trace)
    (hig : w1.imagePull = w2.imagePull)
    (hbr : w1.proxyBuilderRun = w2.proxyBuilderRun)
    (hcs : w1.containerStart = w2.containerStart)
    (hpu : w1.proxyUrl = w2.proxyUrl)
    (hdk : w1.dummyKeyDer = w2.dummyKeyDer)
    (hcw : w1.cwd = w2.cwd)
    (hhd : w1.homeDir = w2.homeDir) :
    writesOf (pullPhaseRicher env fr1 djp1 w1).trace =
      writesOf (pullPhaseRicher env fr2 djp2 w2).trace := by
  have hw : ∀ jid1 jid2, writesOf (proxyPhaseRicher env jid1 djp1 w1).trace =
      writesOf (proxyPhaseRicher env jid2 djp2 w2).trace := by
    intro jid1 jid2
    unfold proxyPhaseRicher
    rw [← hbr, ← hcs, ← hpu]
    cases hb : w1.proxyBuilderRun with
    | error t => simp [writesOf]
    | ok proxy =>
      cases hc : w1.containerStart with
      | error t => simp [writesOf]
      | ok a =>
        cases hu2 : w1.proxyUrl with
        | error t => simp [writesOf]
        | ok u =>
          simp [writesOf, richerOutputs, hdk, hcw, hhd, List.filterMap_append,
            List.filterMap_cons]
  cases hp : w1.imagePull with
  | error t =>
    cases t with
    | jsError m =>
      rw [pullPhase_error_eq env fr1 djp1 w1 m hp,
          pullPhase_error_eq env fr2 djp2 w2 m (by rw [← hig, hp])]
      simp only [writesOf_append, htr]
      congr 1
      cases hb1 : djp1.hasApiClient <;> cases hb2 : djp2.hasApiClient <;>
        simp [writesOf, failJob, List.filterMap_cons, List.filterMap_append]
    | jsNonError =>
      rw [pullPhase_nonError_eq env fr1 djp1 w1 hp,
          pullPhase_nonError_eq env fr2 djp2 w2 (by rw [← hig, hp])]
      simp only [writesOf_append, htr]
      congr 1
      rw [writesOf_cons_pullImage, writesOf_cons_pullImage]
      exact hw fr1.jobId fr2.jobId
  | ok v =>
    rw [pullPhase_ok_eq env fr1 djp1 w1 (by rw [hp]),
        pullPhase_ok_eq env fr2 djp2 w2 (by rw [← hig, hp])]
    simp only [writesOf_append, htr]
    congr 1
    rw [writesOf_cons_pullImage, writesOf_cons_pullImage]
    exact hw fr1.jobId fr2.jobId

/-- C4: the bytes run writes to the filesystem do not depend on the
credential set: two executions of the richer run that differ only in the
credentials returned by the service and parsed from the environment write
exactly the same files (the dummy-key randomness and everything else in the
world being held fixed). -/
theorem claimC4_writes_credential_independent (env : ProcessEnv)
    (params : Option JobParameters) (w : Calls) (c1 c2 e1 e2 : List Credential) :
    writesOf (runRicher env params
      { w with getCredentials := Except.ok c1, parseEnvCredentials := Except.ok e1 }).trace =
    writesOf (runRicher env params
      { w with getCredentials := Except.ok c2, parseEnvCredentials := Except.ok e2 }).trace := by
  obtain ⟨htr, hres⟩ := fetch_rel env params w c1 c2 e1 e2
  unfold runRicher
  rcases hres with ⟨t, h1, h2⟩ | ⟨h1, h2⟩ | ⟨djp1, djp2, h1, h2⟩
  · rw [runAfterFetch_err_eq env _ _ t h1, runAfterFetch_err_eq env _ _ t h2]
    simp only [htr]
  · cases hdc : env.dependabotCredentials with
    | none =>
      rw [runAfterFetch_none_eq env _ _ ⟨"", "", true, [], false⟩ h1
        (by unfold getCredentialsFromEnv; rw [hdc]),
        runAfterFetch_none_eq env _ _ ⟨"", "", true, [], false⟩ h2
        (by unfold getCredentialsFromEnv; rw [hdc])]
      exact writes_pullPhase_indep env _ _ _ _ _ _ htr rfl rfl rfl rfl rfl rfl rfl
    | some s =>
      by_cases hs : s = ""
      · rw [runAfterFetch_none_eq env _ _ ⟨"", "", true, [], false⟩ h1
          (by unfold getCredentialsFromEnv; rw [hdc]; simp [hs]),
          runAfterFetch_none_eq env _ _ ⟨"", "", true, [], false⟩ h2
          (by unfold getCredentialsFromEnv; rw [hdc]; simp [hs])]
        exact writes_pullPhase_indep env _ _ _ _ _ _ htr rfl rfl rfl rfl rfl rfl rfl
      · rw [runAfterFetch_none_eq env _ _ ⟨"", "", true, e1, false⟩ h1
          (by unfold getCredentialsFromEnv; rw [hdc]; simp [hs]),
          runAfterFetch_none_eq env _ _ ⟨"", "", true, e2, false⟩ h2
          (by unfold getCredentialsFromEnv; rw [hdc]; simp [hs])]
        exact writes_pullPhase_indep env _ _ _ _ _ _ htr rfl rfl rfl rfl rfl rfl rfl
  · rw [runAfterFetch_some_eq env _ _ djp1 h1, runAfterFetch_some_eq env _ _ djp2 h2]
    exact writes_pullPhase_indep env _ _ _ _ _ _ htr rfl rfl rfl rfl rfl rfl rfl

end Dependabot
